import Mathlib

/-!
Verification of the threat evaluation engine of the `threatmodel` repository.

The rule library (`threatmodel/threatlib/__init__.py`) is embedded directly
from the source.  The entity/vocabulary module it imports (`threatmodel.model`,
`threatmodel.risk`, `threatmodel.threat`) is not part of the visible source,
so its data model is modelled from the specification (marked
`Modelled from the spec:` below).

Python methods that can raise are embedded as functions returning
`Except PyError`; the (in principle mutable) target object is threaded
through each rule body explicitly, so that non-mutation is a provable
statement about the embedding rather than an assumption.
-/

namespace ThreatModel

/-- Modelled from the spec: machine class enumeration
(physical/virtual/container/serverless, spec section 3). -/
inductive Machine
  | PHYSICAL
  | VIRTUAL
  | CONTAINER
  | SERVERLESS
deriving DecidableEq

/-- Modelled from the spec: technology enumeration (spec section 3 names
WEB_SERVICE_REST, DATABASE, FILE_SERVER, LOCAL_FILE_SYSTEM among others;
a web-application member is included for the derived predicate
`is_web_application`). -/
inductive Technology
  | WEB_SERVICE_REST
  | WEB_APPLICATION
  | DATABASE
  | FILE_SERVER
  | LOCAL_FILE_SYSTEM
deriving DecidableEq

/-- Modelled from the spec: the closed `Controls` enumeration; section 3
lists the members INPUT_SANITIZING, INPUT_VALIDATION, INPUT_BOUNDS_CHECKS,
PARAMETERIZATION and SERVER_SIDE_INCLUDES_DEACTIVATION.  The defining module
is not part of the visible source. -/
inductive Controls
  | INPUT_SANITIZING
  | INPUT_VALIDATION
  | INPUT_BOUNDS_CHECKS
  | PARAMETERIZATION
  | SERVER_SIDE_INCLUDES_DEACTIVATION
deriving DecidableEq

/-- Modelled from the spec: Python attribute lookup on the `Controls` enum
class.  An enum class resolves a member name to the member; any other
attribute name raises AttributeError, embedded here as `none`. -/
def Controls.getattr : String → Option Controls
  | "INPUT_SANITIZING" => some Controls.INPUT_SANITIZING
  | "INPUT_VALIDATION" => some Controls.INPUT_VALIDATION
  | "INPUT_BOUNDS_CHECKS" => some Controls.INPUT_BOUNDS_CHECKS
  | "PARAMETERIZATION" => some Controls.PARAMETERIZATION
  | "SERVER_SIDE_INCLUDES_DEACTIVATION" => some Controls.SERVER_SIDE_INCLUDES_DEACTIVATION
  | _ => none

/-- Modelled from the spec: protocol enumeration of a data flow
(section 3: "a protocol (enum, e.g. HTTPS, SQL, generic NoSQL variants)";
HTTP is included as an unencrypted non-database protocol). -/
inductive Protocol
  | HTTP
  | HTTPS
  | SQL
  | NOSQL
deriving DecidableEq

/-- Modelled from the spec: authentication mode enumeration
(section 3: "an authentication mode (enum, e.g. NONE, SESSION_ID, ...)"). -/
inductive Authentication
  | NONE
  | SESSION_ID
  | TOKEN
deriving DecidableEq

/-- Modelled from the spec: Impact ordinal scale (section 3:
"an Impact ordinal (e.g., LOW...VERY_HIGH)"; the rule bodies use
MEDIUM, HIGH and VERY_HIGH). -/
inductive Impact
  | LOW
  | MEDIUM
  | HIGH
  | VERY_HIGH
deriving DecidableEq, Fintype

/-- Modelled from the spec: Likelihood ordinal scale (section 3:
"a Likelihood ordinal (e.g., UNLIKELY...VERY_LIKELY)"; the rule bodies use
LIKELY and VERY_LIKELY). -/
inductive Likelihood
  | UNLIKELY
  | LIKELY
  | VERY_LIKELY
deriving DecidableEq, Fintype

/-- Modelled from the spec: the small ordered Severity scale
(section 4.4: "a small ordered Severity scale, e.g. LOW/MEDIUM/HIGH/CRITICAL"). -/
inductive Severity
  | LOW
  | MEDIUM
  | HIGH
  | CRITICAL
deriving DecidableEq, Fintype

/-- Ordinal of an Impact value (LOW is the least). -/
def Impact.ord : Impact → Nat
  | Impact.LOW => 1
  | Impact.MEDIUM => 2
  | Impact.HIGH => 3
  | Impact.VERY_HIGH => 4

/-- Ordinal of a Likelihood value (UNLIKELY is the least). -/
def Likelihood.ord : Likelihood → Nat
  | Likelihood.UNLIKELY => 1
  | Likelihood.LIKELY => 2
  | Likelihood.VERY_LIKELY => 3

/-- Ordinal of a Severity value (LOW is the least). -/
def Severity.ord : Severity → Nat
  | Severity.LOW => 1
  | Severity.MEDIUM => 2
  | Severity.HIGH => 3
  | Severity.CRITICAL => 4

/-- Modelled from the spec: the fixed Impact x Likelihood lookup table of the
evaluator (section 4.4: "ordinal product mapped onto a small ordered Severity
scale").  The ordinal product ranges over 1..12 and is cut into the four
severity bands by fixed thresholds. -/
def severity (i : Impact) (l : Likelihood) : Severity :=
  let p := i.ord * l.ord
  if p ≤ 2 then Severity.LOW
  else if p ≤ 5 then Severity.MEDIUM
  else if p ≤ 8 then Severity.HIGH
  else Severity.CRITICAL

/-- Modelled from the spec: runtime kind discriminator of a graph entity
(section 3 concrete kinds Actor, Process, DataStore, ExternalEntity, plus
DataFlow as a rule target; section 9 recommends a closed-kind discriminator
for the dynamic isinstance dispatch of the source). -/
inductive ElementKind
  | actor
  | process
  | dataStore
  | externalEntity
  | dataFlow
deriving DecidableEq

/-- Modelled from the spec: a technical component of the entity graph
(section 3: each concrete node kind carries machine class, technology,
a controls set, and derived/boolean attributes such as
"has environment variables"). -/
structure Component where
  kind : ElementKind
  name : String
  machine : Machine
  technology : Technology
  controls : List Controls
  environment_variables : Bool
deriving DecidableEq

/-- Modelled from the spec: membership of a control in the controls set of a
component (section 3: "a controls set (members of a closed Controls enum)"). -/
def Component.has_control (c : Component) (ctrl : Controls) : Bool :=
  c.controls.contains ctrl

/-- Modelled from the spec: technologies counted as web applications by the
derived predicate `is_web_application` (section 3 lists it among the
"boolean/derived predicates"). -/
def web_application_technologies : List Technology :=
  [Technology.WEB_SERVICE_REST, Technology.WEB_APPLICATION]

/-- Modelled from the spec: the derived predicate "is a web application". -/
def Component.is_web_application (c : Component) : Bool :=
  web_application_technologies.contains c.technology

/-- Modelled from the spec: a directed data flow (section 3: required source
and destination, a protocol, an authentication mode, an encryption flag
derived from protocol/explicit override). -/
structure DataFlow where
  name : String
  source : Component
  destination : Component
  protocol : Protocol
  authentication : Authentication
  encrypted : Bool
deriving DecidableEq

/-- Modelled from the spec: the relational database protocols, used by the
predicate `is_relational_database_protocol` of a data flow (section 4.2:
"a SQL-protocol flow"). -/
def relational_database_protocols : List Protocol :=
  [Protocol.SQL]

/-- Modelled from the spec: the NoSQL database protocols, used by the
predicate `is_nosql_database_protocol` of a data flow (section 3:
"generic NoSQL variants"). -/
def nosql_database_protocols : List Protocol :=
  [Protocol.NOSQL]

/-- Modelled from the spec: does the data flow use a relational (SQL)
database protocol. -/
def DataFlow.is_relational_database_protocol (f : DataFlow) : Bool :=
  relational_database_protocols.contains f.protocol

/-- Modelled from the spec: does the data flow use a NoSQL database
protocol. -/
def DataFlow.is_nosql_database_protocol (f : DataFlow) : Bool :=
  nosql_database_protocols.contains f.protocol

/-- Modelled from the spec: protocols that are encrypted by themselves. -/
def Protocol.encrypts : Protocol → Bool
  | Protocol.HTTPS => true
  | _ => false

/-- Modelled from the spec: the encryption flag of a data flow, "derived from
protocol/explicit override" (section 3). -/
def DataFlow.is_encrypted (f : DataFlow) : Bool :=
  f.encrypted || f.protocol.encrypts

/-- Modelled from the spec: a graph entity a rule can target, either a node
(component) or an edge (data flow). -/
inductive Element
  | component (c : Component)
  | dataFlow (f : DataFlow)
deriving DecidableEq

/-- Runtime kind of an element. -/
def Element.kind : Element → ElementKind
  | Element.component c => c.kind
  | Element.dataFlow _ => ElementKind.dataFlow

/-- Embedding of the Python `isinstance(target, Process)` check of the rule
bodies: the target is a node whose kind discriminator is `process`. -/
def Element.isinstance_process : Element → Bool
  | Element.component c => c.kind == ElementKind.process
  | _ => false

/-- Embedding of the Python `isinstance(target, DataFlow)` check of the rule
bodies. -/
def Element.isinstance_dataflow : Element → Bool
  | Element.dataFlow _ => true
  | _ => false

/-- Modelled from the spec: a Finding/Risk (section 3: target element
reference, originating rule reference recorded by its id, an Impact ordinal
and a Likelihood ordinal).  The constructor argument order follows the
source calls `Risk(target, self, impact, likelihood)`. -/
structure Risk where
  target : Element
  threat_id : String
  impact : Impact
  likelihood : Likelihood
deriving DecidableEq

/-- Modelled from the spec: a Python exception escaping a rule body. -/
inductive PyError
  | attributeError (attr : String)
deriving DecidableEq

deriving instance DecidableEq for Except

/-- Modelled from the spec: attack taxonomy category of a rule (the three
categories used by the embedded rules). -/
inductive AttackCategory
  | MANIPULATE_DATA_STRUCTURES
  | INJECT_UNEXPECTED_ITEMS
  | SUBVERT_ACCESS_CONTROL
deriving DecidableEq

/-- A rule of the library: immutable id, name, tuple of eligible target
kinds, category, and the evaluation function.  The purely informational text
fields of the source (description, prerequisites, mitigations, cwe ids) are
omitted: the spec marks them "informational only" and no rule logic reads
them.  The evaluation function returns the optional finding (or the Python
exception it raises) together with the target object after the call. -/
structure Threat where
  id : String
  name : String
  target_types : List ElementKind
  category : AttackCategory
  apply : Element → Except PyError (Option Risk) × Element

/-- Modelled from the spec: eligibility filter of a rule (section 4.2:
"is_eligible(target) returns true iff the runtime kind of target is one of
the declared eligible kinds of the rule"). -/
def Threat.is_eligible (th : Threat) (target : Element) : Bool :=
  th.target_types.contains target.kind

/-- Embedding of `CAPEC_10.apply` (threatlib lines 38-45): buffer overflow
via environment variables. -/
def CAPEC_10.apply (target : Element) : Except PyError (Option Risk) × Element :=
  match target with
  | Element.component c =>
    if c.kind = ElementKind.process then
      if c.environment_variables = true ∧
          c.has_control Controls.INPUT_SANITIZING = false ∧
          c.has_control Controls.INPUT_BOUNDS_CHECKS = false then
        (Except.ok (some (Risk.mk target "CAPEC-10" Impact.HIGH Likelihood.VERY_LIKELY)), target)
      else
        (Except.ok none, target)
    else
      (Except.ok none, target)
  | _ => (Except.ok none, target)

/-- The `CAPEC_10` rule object (threatlib lines 15-45). -/
def CAPEC_10.threat : Threat :=
  { id := "CAPEC-10"
    name := "Buffer Overflow via Environment Variables"
    target_types := [ElementKind.process]
    category := AttackCategory.MANIPULATE_DATA_STRUCTURES
    apply := CAPEC_10.apply }

/-- Embedding of `CAPEC_66.apply` (threatlib lines 68-78): SQL injection.
The third conjunct of the source condition reads the class attribute
`Controls.Parameterization`; attribute lookup on the enum class is embedded
through `Controls.getattr` and its failure surfaces as an AttributeError.
Python evaluates `and` left to right, so the lookup happens only after the
two `has_control` checks on the source returned False. -/
def CAPEC_66.apply (target : Element) : Except PyError (Option Risk) × Element :=
  match target with
  | Element.dataFlow f =>
    if f.is_relational_database_protocol = false then
      (Except.ok none, target)
    else
      if f.source.has_control Controls.INPUT_SANITIZING = false ∧
          f.source.has_control Controls.INPUT_VALIDATION = false then
        match Controls.getattr "Parameterization" with
        | none => (Except.error (PyError.attributeError "Parameterization"), target)
        | some ctrl =>
          if f.source.has_control ctrl = false then
            (Except.ok (some (Risk.mk (Element.component f.source) "CAPEC-66" Impact.HIGH Likelihood.LIKELY)), target)
          else
            (Except.ok none, target)
      else
        (Except.ok none, target)
  | _ => (Except.ok none, target)

/-- The `CAPEC_66` rule object (threatlib lines 48-78). -/
def CAPEC_66.threat : Threat :=
  { id := "CAPEC-66"
    name := "SQL Injection"
    target_types := [ElementKind.dataFlow]
    category := AttackCategory.INJECT_UNEXPECTED_ITEMS
    apply := CAPEC_66.apply }

/-- Embedding of `CAPEC_100.apply` (threatlib lines 105-112): overflow
buffers. -/
def CAPEC_100.apply (target : Element) : Except PyError (Option Risk) × Element :=
  match target with
  | Element.component c =>
    if c.kind = ElementKind.process then
      if c.has_control Controls.INPUT_BOUNDS_CHECKS = false then
        (Except.ok (some (Risk.mk target "CAPEC-100" Impact.VERY_HIGH Likelihood.VERY_LIKELY)), target)
      else
        (Except.ok none, target)
    else
      (Except.ok none, target)
  | _ => (Except.ok none, target)

/-- The `CAPEC_100` rule object (threatlib lines 81-112). -/
def CAPEC_100.threat : Threat :=
  { id := "CAPEC-100"
    name := "Overflow Buffers"
    target_types := [ElementKind.process]
    category := AttackCategory.MANIPULATE_DATA_STRUCTURES
    apply := CAPEC_100.apply }

/-- Embedding of `CAPEC_101.apply` (threatlib lines 135-145): server side
include injection. -/
def CAPEC_101.apply (target : Element) : Except PyError (Option Risk) × Element :=
  match target with
  | Element.component c =>
    if c.kind = ElementKind.process then
      if c.has_control Controls.SERVER_SIDE_INCLUDES_DEACTIVATION = true ∨
          c.has_control Controls.INPUT_SANITIZING = true then
        (Except.ok none, target)
      else
        if c.is_web_application = true then
          (Except.ok (some (Risk.mk target "CAPEC-101" Impact.HIGH Likelihood.LIKELY)), target)
        else
          (Except.ok none, target)
    else
      (Except.ok none, target)
  | _ => (Except.ok none, target)

/-- The `CAPEC_101` rule object (threatlib lines 115-145). -/
def CAPEC_101.threat : Threat :=
  { id := "CAPEC-101"
    name := "Server Side Include (SSI) Injection"
    target_types := [ElementKind.process]
    category := AttackCategory.INJECT_UNEXPECTED_ITEMS
    apply := CAPEC_101.apply }

/-- Embedding of `CAPEC_102.apply` (threatlib lines 169-176): session
sidejacking. -/
def CAPEC_102.apply (target : Element) : Except PyError (Option Risk) × Element :=
  match target with
  | Element.dataFlow f =>
    if f.is_encrypted = false ∧ f.authentication = Authentication.SESSION_ID then
      (Except.ok (some (Risk.mk target "CAPEC-102" Impact.HIGH Likelihood.LIKELY)), target)
    else
      (Except.ok none, target)
  | _ => (Except.ok none, target)

/-- The `CAPEC_102` rule object (threatlib lines 148-176). -/
def CAPEC_102.threat : Threat :=
  { id := "CAPEC-102"
    name := "Session Sidejacking"
    target_types := [ElementKind.dataFlow]
    category := AttackCategory.SUBVERT_ACCESS_CONTROL
    apply := CAPEC_102.apply }

/-- Embedding of `CAPEC_126.apply` (threatlib lines 208-218): path
traversal.  The technology gate of the source is
`target.technology in [Technology.FILE_SERVER, Technology.LOCAL_FILE_SYSTEM]`. -/
def CAPEC_126.apply (target : Element) : Except PyError (Option Risk) × Element :=
  match target with
  | Element.component c =>
    if c.kind = ElementKind.process then
      if [Technology.FILE_SERVER, Technology.LOCAL_FILE_SYSTEM].contains c.technology = false then
        (Except.ok none, target)
      else
        if c.has_control Controls.INPUT_SANITIZING = false ∧
            c.has_control Controls.INPUT_VALIDATION = false then
          (Except.ok (some (Risk.mk target "CAPEC-126" Impact.MEDIUM Likelihood.VERY_LIKELY)), target)
        else
          (Except.ok none, target)
    else
      (Except.ok none, target)
  | _ => (Except.ok none, target)

/-- The `CAPEC_126` rule object (threatlib lines 179-218). -/
def CAPEC_126.threat : Threat :=
  { id := "CAPEC-126"
    name := "Path Traversal"
    target_types := [ElementKind.process]
    category := AttackCategory.MANIPULATE_DATA_STRUCTURES
    apply := CAPEC_126.apply }

/-- Embedding of `CAPEC_676.apply` (threatlib lines 248-258): NoSQL
injection. -/
def CAPEC_676.apply (target : Element) : Except PyError (Option Risk) × Element :=
  match target with
  | Element.dataFlow f =>
    if f.is_nosql_database_protocol = false then
      (Except.ok none, target)
    else
      if f.source.has_control Controls.INPUT_SANITIZING = false ∧
          f.source.has_control Controls.INPUT_VALIDATION = false then
        (Except.ok (some (Risk.mk (Element.component f.source) "CAPEC-676" Impact.HIGH Likelihood.LIKELY)), target)
      else
        (Except.ok none, target)
  | _ => (Except.ok none, target)

/-- The `CAPEC_676` rule object (threatlib lines 221-258). -/
def CAPEC_676.threat : Threat :=
  { id := "CAPEC-676"
    name := "NoSQL Injection"
    target_types := [ElementKind.dataFlow]
    category := AttackCategory.INJECT_UNEXPECTED_ITEMS
    apply := CAPEC_676.apply }

/-- Modelled from the spec: the rule registry (section 4.3), an ordered
collection of rules. -/
structure Threatlib where
  threats : List Threat

/-- The default library after the `add_threats` call of the source
(threatlib lines 261-271): the seven rules in registration order. -/
def DEFAULT_THREATLIB : Threatlib :=
  { threats :=
      [CAPEC_10.threat, CAPEC_66.threat, CAPEC_100.threat, CAPEC_101.threat,
       CAPEC_102.threat, CAPEC_126.threat, CAPEC_676.threat] }

/-- Modelled from the spec: one work item of the evaluator (section 4.4):
the optional finding a rule contributes for one entity.  An ineligible
entity is filtered out before apply is invoked; a rule body that raises is
isolated and contributes no finding, the recommended contract of
section 7. -/
def ruleFinding (th : Threat) (t : Element) : Option Risk :=
  if th.is_eligible t = true then
    match (th.apply t).1 with
    | Except.ok r => r
    | Except.error _ => none
  else
    none

/-- Modelled from the spec: the evaluation algorithm (section 4.4): for every
rule of the registry and every entity for which the rule is eligible, invoke
apply and collect the non-empty results in order. -/
def evaluate (lib : Threatlib) (targets : List Element) : List Risk :=
  lib.threats.flatMap fun th =>
    targets.filterMap fun t => ruleFinding th t

/-! Concrete sample entities used by the closed theorems and witnesses. -/

/-- A process exposing environment variables and declaring no control. -/
def procNoControls : Component :=
  ⟨ElementKind.process, "WebApi", Machine.VIRTUAL, Technology.WEB_SERVICE_REST, [], true⟩

/-- A process whose only declared control is PARAMETERIZATION. -/
def procParameterized : Component :=
  ⟨ElementKind.process, "WebApi", Machine.VIRTUAL, Technology.WEB_SERVICE_REST,
   [Controls.PARAMETERIZATION], false⟩

/-- A data store backing the SQL flows. -/
def dbStore : Component :=
  ⟨ElementKind.dataStore, "Database", Machine.VIRTUAL, Technology.DATABASE, [], false⟩

/-- A SQL flow whose source declares no control. -/
def sqlFlowUnprotected : DataFlow :=
  ⟨"Authenticate", procNoControls, dbStore, Protocol.SQL, Authentication.NONE, false⟩

/-- A SQL flow whose source declares only the PARAMETERIZATION control. -/
def sqlFlowParameterized : DataFlow :=
  ⟨"Authenticate", procParameterized, dbStore, Protocol.SQL, Authentication.NONE, false⟩

/-- A file-serving process on LOCAL_FILE_SYSTEM technology without controls. -/
def procLocalFileSystem : Component :=
  ⟨ElementKind.process, "FileAccess", Machine.VIRTUAL, Technology.LOCAL_FILE_SYSTEM, [], false⟩

/-- C1: the claim states that a SQL flow whose source has none of
INPUT_SANITIZING, INPUT_VALIDATION and the parameterization control yields
one HIGH/LIKELY finding on the source.  On exactly such a target the rule
body instead raises AttributeError: the third conjunct of its condition
reads the class attribute `Controls.Parameterization`, which is not a member
of the Controls enumeration (the member is PARAMETERIZATION). -/
theorem CAPEC_66_attribute_error_unsanitized_sql_flow :
    sqlFlowUnprotected.is_relational_database_protocol = true ∧
    sqlFlowUnprotected.source.has_control Controls.INPUT_SANITIZING = false ∧
    sqlFlowUnprotected.source.has_control Controls.INPUT_VALIDATION = false ∧
    sqlFlowUnprotected.source.has_control Controls.PARAMETERIZATION = false ∧
    (CAPEC_66.apply (Element.dataFlow sqlFlowUnprotected)).1
      = Except.error (PyError.attributeError "Parameterization") := by
  decide

/-- C2: the claim states that every rule of the default library completes
without error on an eligible, well-typed target, naming `CAPEC_66.apply` in
particular.  The SQL-injection rule raises AttributeError on an eligible SQL
data flow whose source lacks the sanitizing and validation controls (here
the source even declares the PARAMETERIZATION control the rule means to
check). -/
theorem CAPEC_66_raises_despite_parameterized_source :
    CAPEC_66.threat.is_eligible (Element.dataFlow sqlFlowParameterized) = true ∧
    (CAPEC_66.threat.apply (Element.dataFlow sqlFlowParameterized)).1
      = Except.error (PyError.attributeError "Parameterization") := by
  decide

/-- C3 counterexample: a Process whose technology is LOCAL_FILE_SYSTEM (not
FILE_SERVER) and that declares no control also triggers the path-traversal
rule, refuting "for every Process whose technology is not FILE_SERVER, the
rule returns no Finding regardless of which controls the process has". -/
theorem CAPEC_126_triggers_on_local_file_system :
    procLocalFileSystem.kind = ElementKind.process ∧
    procLocalFileSystem.technology ≠ Technology.FILE_SERVER ∧
    (CAPEC_126.apply (Element.component procLocalFileSystem)).1
      = Except.ok (some (Risk.mk (Element.component procLocalFileSystem)
          "CAPEC-126" Impact.MEDIUM Likelihood.VERY_LIKELY)) := by
  decide

/-- C3 (amended): a FILE_SERVER process lacking both INPUT_SANITIZING and
INPUT_VALIDATION gets exactly one MEDIUM/VERY_LIKELY finding, and a process
whose technology is neither FILE_SERVER nor LOCAL_FILE_SYSTEM never
triggers the rule, regardless of its controls. -/
theorem CAPEC_126_path_traversal (p : Component)
    (hk : p.kind = ElementKind.process) :
    (p.technology = Technology.FILE_SERVER →
      p.has_control Controls.INPUT_SANITIZING = false →
      p.has_control Controls.INPUT_VALIDATION = false →
      (CAPEC_126.apply (Element.component p)).1
        = Except.ok (some (Risk.mk (Element.component p)
            "CAPEC-126" Impact.MEDIUM Likelihood.VERY_LIKELY))) ∧
    (p.technology ≠ Technology.FILE_SERVER →
      p.technology ≠ Technology.LOCAL_FILE_SYSTEM →
      (CAPEC_126.apply (Element.component p)).1 = Except.ok none) := by
  constructor
  · intro ht hs hv
    simp [CAPEC_126.apply, hk, ht, hs, hv]
  · intro h1 h2
    cases htech : p.technology <;>
      simp_all [CAPEC_126.apply, hk, htech]

/-- C3 witness: both branches of the amended statement at concrete inputs. -/
theorem CAPEC_126_path_traversal_witness :
    ((⟨ElementKind.process, "FS", Machine.VIRTUAL, Technology.FILE_SERVER, [], false⟩ : Component).kind
        = ElementKind.process ∧
      (CAPEC_126.apply (Element.component
          ⟨ElementKind.process, "FS", Machine.VIRTUAL, Technology.FILE_SERVER, [], false⟩)).1
        = Except.ok (some (Risk.mk (Element.component
            ⟨ElementKind.process, "FS", Machine.VIRTUAL, Technology.FILE_SERVER, [], false⟩)
            "CAPEC-126" Impact.MEDIUM Likelihood.VERY_LIKELY))) ∧
    (CAPEC_126.apply (Element.component procNoControls)).1 = Except.ok none :=
  ⟨⟨rfl, (CAPEC_126_path_traversal _ rfl).1 rfl rfl rfl⟩,
   (CAPEC_126_path_traversal procNoControls rfl).2 (by decide) (by decide)⟩

/-- C5: a Process lacking the INPUT_BOUNDS_CHECKS control always gets a
VERY_HIGH/VERY_LIKELY finding from the buffer-overflow rule, and a Process
declaring that control gets none. -/
theorem CAPEC_100_buffer_overflow (p : Component)
    (hk : p.kind = ElementKind.process) :
    (p.has_control Controls.INPUT_BOUNDS_CHECKS = false →
      (CAPEC_100.apply (Element.component p)).1
        = Except.ok (some (Risk.mk (Element.component p)
            "CAPEC-100" Impact.VERY_HIGH Likelihood.VERY_LIKELY))) ∧
    (p.has_control Controls.INPUT_BOUNDS_CHECKS = true →
      (CAPEC_100.apply (Element.component p)).1 = Except.ok none) := by
  constructor <;> intro h <;> simp [CAPEC_100.apply, hk, h]

/-- C5 witness: both branches at concrete processes. -/
theorem CAPEC_100_buffer_overflow_witness :
    (procNoControls.has_control Controls.INPUT_BOUNDS_CHECKS = false ∧
      (CAPEC_100.apply (Element.component procNoControls)).1
        = Except.ok (some (Risk.mk (Element.component procNoControls)
            "CAPEC-100" Impact.VERY_HIGH Likelihood.VERY_LIKELY))) ∧
    ((⟨ElementKind.process, "Safe", Machine.VIRTUAL, Technology.WEB_SERVICE_REST,
        [Controls.INPUT_BOUNDS_CHECKS], false⟩ : Component).has_control
        Controls.INPUT_BOUNDS_CHECKS = true ∧
      (CAPEC_100.apply (Element.component
          ⟨ElementKind.process, "Safe", Machine.VIRTUAL, Technology.WEB_SERVICE_REST,
           [Controls.INPUT_BOUNDS_CHECKS], false⟩)).1 = Except.ok none) :=
  ⟨⟨by decide, (CAPEC_100_buffer_overflow procNoControls rfl).1 (by decide)⟩,
   ⟨by decide, (CAPEC_100_buffer_overflow _ rfl).2 (by decide)⟩⟩

/-- C6: an unencrypted data flow authenticated by SESSION_ID gets exactly one
HIGH/LIKELY finding on the flow itself from the session-sidejacking rule,
and an encrypted flow gets none. -/
theorem CAPEC_102_session_sidejacking (f : DataFlow) :
    (f.is_encrypted = false → f.authentication = Authentication.SESSION_ID →
      (CAPEC_102.apply (Element.dataFlow f)).1
        = Except.ok (some (Risk.mk (Element.dataFlow f)
            "CAPEC-102" Impact.HIGH Likelihood.LIKELY))) ∧
    (f.is_encrypted = true →
      (CAPEC_102.apply (Element.dataFlow f)).1 = Except.ok none) := by
  constructor
  · intro he ha
    simp [CAPEC_102.apply, he, ha]
  · intro he
    simp [CAPEC_102.apply, he]

/-- C6 witness: both branches at concrete flows. -/
theorem CAPEC_102_session_sidejacking_witness :
    ((⟨"Login", procNoControls, dbStore, Protocol.HTTP, Authentication.SESSION_ID, false⟩
        : DataFlow).is_encrypted = false ∧
      (CAPEC_102.apply (Element.dataFlow
          ⟨"Login", procNoControls, dbStore, Protocol.HTTP, Authentication.SESSION_ID, false⟩)).1
        = Except.ok (some (Risk.mk (Element.dataFlow
            ⟨"Login", procNoControls, dbStore, Protocol.HTTP, Authentication.SESSION_ID, false⟩)
            "CAPEC-102" Impact.HIGH Likelihood.LIKELY))) ∧
    ((⟨"Login", procNoControls, dbStore, Protocol.HTTPS, Authentication.SESSION_ID, false⟩
        : DataFlow).is_encrypted = true ∧
      (CAPEC_102.apply (Element.dataFlow
          ⟨"Login", procNoControls, dbStore, Protocol.HTTPS, Authentication.SESSION_ID, false⟩)).1
        = Except.ok none) :=
  ⟨⟨by decide, (CAPEC_102_session_sidejacking _).1 (by decide) rfl⟩,
   ⟨by decide, (CAPEC_102_session_sidejacking _).2 (by decide)⟩⟩

/-- C10: a NoSQL-protocol data flow whose source lacks both INPUT_SANITIZING
and INPUT_VALIDATION yields exactly one HIGH/LIKELY finding attributed to
the source of the flow; in every other case the NoSQL-injection rule
returns no finding. -/
theorem CAPEC_676_nosql_injection (f : DataFlow) :
    (f.is_nosql_database_protocol = true →
      ((f.source.has_control Controls.INPUT_SANITIZING = false →
          f.source.has_control Controls.INPUT_VALIDATION = false →
          (CAPEC_676.apply (Element.dataFlow f)).1
            = Except.ok (some (Risk.mk (Element.component f.source)
                "CAPEC-676" Impact.HIGH Likelihood.LIKELY))) ∧
        (f.source.has_control Controls.INPUT_SANITIZING = true ∨
            f.source.has_control Controls.INPUT_VALIDATION = true →
          (CAPEC_676.apply (Element.dataFlow f)).1 = Except.ok none))) ∧
    (f.is_nosql_database_protocol = false →
      (CAPEC_676.apply (Element.dataFlow f)).1 = Except.ok none) := by
  constructor
  · intro hp
    constructor
    · intro hs hv
      simp [CAPEC_676.apply, hp, hs, hv]
    · intro h
      rcases h with h | h <;> simp [CAPEC_676.apply, hp, h]
  · intro hp
    simp [CAPEC_676.apply, hp]

/-- C10 witness: the finding branch at a concrete unprotected NoSQL flow. -/
theorem CAPEC_676_nosql_injection_witness :
    (⟨"Query", procNoControls, dbStore, Protocol.NOSQL, Authentication.NONE, false⟩
        : DataFlow).is_nosql_database_protocol = true ∧
    (CAPEC_676.apply (Element.dataFlow
        ⟨"Query", procNoControls, dbStore, Protocol.NOSQL, Authentication.NONE, false⟩)).1
      = Except.ok (some (Risk.mk (Element.component procNoControls)
          "CAPEC-676" Impact.HIGH Likelihood.LIKELY)) :=
  ⟨by decide,
   ((CAPEC_676_nosql_injection _).1 (by decide)).1 (by decide) (by decide)⟩

/-- Helper: filtering a single-entity model is the optional-finding list of
that entity. -/
lemma filterMap_singleton {α β : Type} (f : α → Option β) (a : α) :
    [a].filterMap f = (f a).toList := by
  cases h : f a <;> simp [h]

/-- Helper: evaluation of the default library on a one-entity model, rule by
rule in registration order. -/
lemma evaluate_default_singleton (e : Element) :
    evaluate DEFAULT_THREATLIB [e]
      = (ruleFinding CAPEC_10.threat e).toList ++ (ruleFinding CAPEC_66.threat e).toList
        ++ (ruleFinding CAPEC_100.threat e).toList ++ (ruleFinding CAPEC_101.threat e).toList
        ++ (ruleFinding CAPEC_102.threat e).toList ++ (ruleFinding CAPEC_126.threat e).toList
        ++ (ruleFinding CAPEC_676.threat e).toList := by
  simp [evaluate, DEFAULT_THREATLIB, filterMap_singleton]

/-- C4: evaluating a model holding a Process with environment_variables true
and neither INPUT_SANITIZING nor INPUT_BOUNDS_CHECKS against the default
library yields exactly one finding from the environment-variable-overflow
rule CAPEC-10, on that Process, with Impact HIGH and Likelihood
VERY_LIKELY. -/
theorem evaluate_env_variables_overflow_scenario (p : Component)
    (hk : p.kind = ElementKind.process)
    (henv : p.environment_variables = true)
    (hs : p.has_control Controls.INPUT_SANITIZING = false)
    (hb : p.has_control Controls.INPUT_BOUNDS_CHECKS = false) :
    (evaluate DEFAULT_THREATLIB [Element.component p]).filter
        (fun r => r.threat_id == "CAPEC-10")
      = [Risk.mk (Element.component p) "CAPEC-10" Impact.HIGH Likelihood.VERY_LIKELY] := by
  have h10 : ruleFinding CAPEC_10.threat (Element.component p)
      = some (Risk.mk (Element.component p) "CAPEC-10" Impact.HIGH Likelihood.VERY_LIKELY) := by
    simp [ruleFinding, Threat.is_eligible, Element.kind, CAPEC_10.threat, CAPEC_10.apply,
      hk, henv, hs, hb]
  have h66 : ruleFinding CAPEC_66.threat (Element.component p) = none := by
    simp [ruleFinding, Threat.is_eligible, Element.kind, CAPEC_66.threat, hk]
  have h100 : ruleFinding CAPEC_100.threat (Element.component p)
      = some (Risk.mk (Element.component p) "CAPEC-100" Impact.VERY_HIGH Likelihood.VERY_LIKELY) := by
    simp [ruleFinding, Threat.is_eligible, Element.kind, CAPEC_100.threat, CAPEC_100.apply,
      hk, hb]
  have h102 : ruleFinding CAPEC_102.threat (Element.component p) = none := by
    simp [ruleFinding, Threat.is_eligible, Element.kind, CAPEC_102.threat, hk]
  have h676 : ruleFinding CAPEC_676.threat (Element.component p) = none := by
    simp [ruleFinding, Threat.is_eligible, Element.kind, CAPEC_676.threat, hk]
  have h101 : ∀ r : Risk, ruleFinding CAPEC_101.threat (Element.component p) = some r →
      r.threat_id = "CAPEC-101" := by
    intro r h
    simp [ruleFinding, Threat.is_eligible, Element.kind, CAPEC_101.threat, CAPEC_101.apply,
      hk] at h
    split_ifs at h
    all_goals try simp_all
    subst h
    rfl
  have h126 : ∀ r : Risk, ruleFinding CAPEC_126.threat (Element.component p) = some r →
      r.threat_id = "CAPEC-126" := by
    intro r h
    simp [ruleFinding, Threat.is_eligible, Element.kind, CAPEC_126.threat, CAPEC_126.apply,
      hk] at h
    split_ifs at h
    all_goals try simp_all
    subst h
    rfl
  have hb1 : (("CAPEC-100" : String) == "CAPEC-10") = false := by decide
  have hb2 : (("CAPEC-101" : String) == "CAPEC-10") = false := by decide
  have hb3 : (("CAPEC-126" : String) == "CAPEC-10") = false := by decide
  rw [evaluate_default_singleton, h10, h66, h100, h102, h676]
  cases ho101 : ruleFinding CAPEC_101.threat (Element.component p) with
  | none =>
    cases ho126 : ruleFinding CAPEC_126.threat (Element.component p) with
    | none => simp [List.filter_append, hb1]
    | some r126 =>
      have hid := h126 r126 ho126
      simp [List.filter_append, hb1, hid, hb3]
  | some r101 =>
    have hid1 := h101 r101 ho101
    cases ho126 : ruleFinding CAPEC_126.threat (Element.component p) with
    | none => simp [List.filter_append, hb1, hid1, hb2]
    | some r126 =>
      have hid2 := h126 r126 ho126
      simp [List.filter_append, hb1, hid1, hb2, hid2, hb3]

/-- C4 witness: the scenario at a concrete process. -/
theorem evaluate_env_variables_overflow_scenario_witness :
    procNoControls.kind = ElementKind.process ∧
    procNoControls.environment_variables = true ∧
    procNoControls.has_control Controls.INPUT_SANITIZING = false ∧
    procNoControls.has_control Controls.INPUT_BOUNDS_CHECKS = false ∧
    (evaluate DEFAULT_THREATLIB [Element.component procNoControls]).filter
        (fun r => r.threat_id == "CAPEC-10")
      = [Risk.mk (Element.component procNoControls) "CAPEC-10" Impact.HIGH Likelihood.VERY_LIKELY] :=
  ⟨rfl, rfl, rfl, rfl,
   evaluate_env_variables_overflow_scenario procNoControls rfl rfl rfl rfl⟩

/-- C7: every rule of the default library is pure: its evaluation function
leaves the target state unchanged and returns equal outcomes on targets in
equal states. -/
theorem threatlib_apply_pure :
    ∀ th ∈ DEFAULT_THREATLIB.threats, ∀ t : Element,
      (th.apply t).2 = t ∧ ∀ t₂ : Element, t = t₂ → th.apply t = th.apply t₂ := by
  intro th hth t
  refine ⟨?_, fun t₂ h => by rw [h]⟩
  simp [DEFAULT_THREATLIB] at hth
  rcases hth with rfl | rfl | rfl | rfl | rfl | rfl | rfl <;>
    cases t <;>
      simp only [CAPEC_10.threat, CAPEC_66.threat, CAPEC_100.threat, CAPEC_101.threat,
        CAPEC_102.threat, CAPEC_126.threat, CAPEC_676.threat,
        CAPEC_10.apply, CAPEC_66.apply, CAPEC_100.apply, CAPEC_101.apply,
        CAPEC_102.apply, CAPEC_126.apply, CAPEC_676.apply] <;>
      (repeat' split) <;> rfl

/-- C7 witness: non-mutation of a concrete rule at a concrete target. -/
theorem threatlib_apply_pure_witness :
    CAPEC_102.threat ∈ DEFAULT_THREATLIB.threats ∧
    (CAPEC_102.threat.apply (Element.component procNoControls)).2
      = Element.component procNoControls :=
  ⟨by simp [DEFAULT_THREATLIB],
   (threatlib_apply_pure CAPEC_102.threat (by simp [DEFAULT_THREATLIB])
     (Element.component procNoControls)).1⟩

/-- C8: the severity lookup is a total deterministic function of the
(Impact, Likelihood) pair, monotone in both ordinals. -/
theorem severity_total_and_monotone :
    (∀ i l s₁ s₂, severity i l = s₁ → severity i l = s₂ → s₁ = s₂) ∧
    (∀ i₁ i₂ l₁ l₂, Impact.ord i₁ ≤ Impact.ord i₂ →
      Likelihood.ord l₁ ≤ Likelihood.ord l₂ →
      Severity.ord (severity i₁ l₁) ≤ Severity.ord (severity i₂ l₂)) := by
  constructor
  · intro i l s₁ s₂ h₁ h₂
    rw [← h₁, ← h₂]
  · decide

/-- C8 witness: monotonicity instance at concrete ordinals. -/
theorem severity_total_and_monotone_witness :
    Impact.ord Impact.MEDIUM ≤ Impact.ord Impact.HIGH ∧
    Likelihood.ord Likelihood.LIKELY ≤ Likelihood.ord Likelihood.VERY_LIKELY ∧
    Severity.ord (severity Impact.MEDIUM Likelihood.LIKELY)
      ≤ Severity.ord (severity Impact.HIGH Likelihood.VERY_LIKELY) :=
  ⟨by decide, by decide,
   severity_total_and_monotone.2 Impact.MEDIUM Impact.HIGH
     Likelihood.LIKELY Likelihood.VERY_LIKELY (by decide) (by decide)⟩

/-- C9: every rule of the default library starts with a defensive kind
check: invoked directly on a target whose runtime kind is outside the
declared eligible kinds of the rule, it returns no finding instead of
raising. -/
theorem threatlib_defensive_kind_check :
    ∀ th ∈ DEFAULT_THREATLIB.threats, ∀ t : Element,
      th.is_eligible t = false → (th.apply t).1 = Except.ok none := by
  intro th hth t hne
  simp [DEFAULT_THREATLIB] at hth
  rcases hth with rfl | rfl | rfl | rfl | rfl | rfl | rfl <;>
    cases t <;>
      simp_all [Threat.is_eligible, Element.kind,
        CAPEC_10.threat, CAPEC_66.threat, CAPEC_100.threat, CAPEC_101.threat,
        CAPEC_102.threat, CAPEC_126.threat, CAPEC_676.threat,
        CAPEC_10.apply, CAPEC_66.apply, CAPEC_100.apply, CAPEC_101.apply,
        CAPEC_102.apply, CAPEC_126.apply, CAPEC_676.apply,
        List.contains]

/-- C9 witness: the buffer-overflow-via-environment-variables rule invoked
directly on a data store returns no finding. -/
theorem threatlib_defensive_kind_check_witness :
    CAPEC_10.threat ∈ DEFAULT_THREATLIB.threats ∧
    CAPEC_10.threat.is_eligible (Element.component dbStore) = false ∧
    (CAPEC_10.threat.apply (Element.component dbStore)).1 = Except.ok none :=
  ⟨by simp [DEFAULT_THREATLIB], by decide,
   threatlib_defensive_kind_check CAPEC_10.threat (by simp [DEFAULT_THREATLIB])
     (Element.component dbStore) (by decide)⟩

end ThreatModel
